import Mathlib

/-!
Shallow embedding of the Pagila MCP server (src/tools.py): the result
normalizer `visual_report`, the safe-query gate `run_safe_query`, and the
report catalog entries, together with theorems settling the specification
claims about them.

Modelling conventions:
* Scalar cell values are `Val` (strings, ints, and exact fractions `Frac`
  standing for Python's numeric float/Decimal values; binary floating-point
  representation error is out of scope, all concrete values used below are
  exact in both models).
* Python values returned by the tools are modelled by the JSON-like type `J`;
  a Python `dict` is an insertion-ordered association list.
* A Python function that can raise (IndexError from `row[i]`, ValueError from
  `int(...)`/`float(...)`) is modelled with `Option`: `none` is an uncaught
  exception, i.e. the call produces no value.
* The database/Executor is out of scope (it is an external collaborator); it
  is passed in as a function from the executed statement to a `QueryResult`.
  `run_safe_query` returns, besides its value, the statement actually handed
  to the Executor (`none` when the Executor is never invoked).
* `str.lower()` is modelled on the ASCII fragment (all gate keywords are
  ASCII), matching Python's behaviour there.
-/

namespace MCPDB

/-- An exact fraction: the model of a Python float/Decimal value. The
denominator is positive (a power of ten) in every value the program builds;
no normalization is performed, so equality is representation equality. -/
structure Frac where
  num : Int
  den : Nat
deriving DecidableEq

/-- Scalar cell values: Python strings, ints, and numeric (float/Decimal)
values modelled as exact fractions. -/
inductive Val where
  | vs : String → Val
  | vi : Int → Val
  | vq : Frac → Val
deriving DecidableEq

/-- JSON-like values returned by the tools: strings, ints, numerics, lists,
and insertion-ordered dicts. -/
inductive J where
  | s : String → J
  | i : Int → J
  | q : Frac → J
  | arr : List J → J
  | obj : List (String × J) → J

/-- Key list of a dict value (empty for non-dicts). -/
def jKeys : J → List String
  | J.obj l => l.map Prod.fst
  | _ => []

/-- Dict lookup on a `J` value. -/
def jGet (j : J) (k : String) : Option J :=
  match j with
  | J.obj l => (l.find? (fun p => p.1 == k)).map Prod.snd
  | _ => none

/-- Python `str.lower()` on the ASCII fragment. -/
def pyLower (s : String) : String :=
  String.mk (s.data.map Char.toLower)

/-- Contiguous-sublist test on character lists. -/
def listContainsSub : List Char → List Char → Bool
  | hay@(_ :: t), needle => needle.isPrefixOf hay || listContainsSub t needle
  | [], needle => needle.isEmpty

/-- Python substring containment `needle in hay`. -/
def strContains (hay needle : String) : Bool :=
  listContainsSub hay.data needle.data

/-- Python `hay.startswith(needle)`. -/
def pyStartsWith (hay needle : String) : Bool :=
  needle.data.isPrefixOf hay.data

/-- Digit-list value (assuming all digits). -/
def digitsVal (l : List Char) : Nat :=
  l.foldl (fun a c => a * 10 + (c.toNat - 48)) 0

/-- Digit-list parse: `none` unless nonempty and all decimal digits. -/
def digitsToNat (l : List Char) : Option Nat :=
  if l.isEmpty then none
  else if l.all Char.isDigit then some (digitsVal l) else none

/-- Strip ASCII whitespace from both ends of a character list. -/
def stripWS (l : List Char) : List Char :=
  ((l.dropWhile Char.isWhitespace).reverse.dropWhile Char.isWhitespace).reverse

/-- Modelled fragment of Python `int(str)`: surrounding whitespace, optional
sign, then decimal digits only — `int("7.0")` raises ValueError (`none`).
(Underscore grouping and non-decimal bases are outside the fragment this
program exercises.) -/
def pyIntOfString (s : String) : Option Int :=
  match stripWS s.data with
  | '-' :: rest => (digitsToNat rest).map (fun n => -(n : Int))
  | '+' :: rest => (digitsToNat rest).map (fun n => (n : Int))
  | rest => (digitsToNat rest).map (fun n => (n : Int))

/-- Modelled fragment of Python `float(str)`: surrounding whitespace, optional
sign, decimal digits with an optional decimal point (at least one digit).
(Exponents, `inf`/`nan` and underscore grouping are outside the fragment this
program exercises.) -/
def pyFloatOfString (s : String) : Option Frac :=
  let go : Int → List Char → Option Frac := fun sgn l =>
    let ip := l.takeWhile Char.isDigit
    match l.dropWhile Char.isDigit with
    | [] => (digitsToNat ip).map (fun n => ⟨sgn * n, 1⟩)
    | '.' :: fp =>
      if fp.all Char.isDigit && !(ip.isEmpty && fp.isEmpty) then
        some ⟨sgn * (digitsVal (ip ++ fp) : Int), 10 ^ fp.length⟩
      else none
    | _ => none
  match stripWS s.data with
  | '-' :: rest => go (-1) rest
  | '+' :: rest => go 1 rest
  | rest => go 1 rest

/-- Python `float(value)` on a scalar. -/
def pyFloat : Val → Option Frac
  | Val.vs s => pyFloatOfString s
  | Val.vi n => some ⟨n, 1⟩
  | Val.vq q => some q

/-- Truncation toward zero, Python `int(float)` (T-division of numerator by
denominator). -/
def ratTrunc (q : Frac) : Int :=
  Int.tdiv q.num q.den

/-- Python `int(value)` on a scalar. -/
def pyInt : Val → Option Int
  | Val.vs s => pyIntOfString s
  | Val.vi n => some n
  | Val.vq q => some (ratTrunc q)

/-- Round half to even to the nearest integer (Python's rounding mode):
`f` is the floor, `rem2` is twice the fractional remainder measured against
the denominator. -/
def roundHalfEven (q : Frac) : Int :=
  let f := Int.ediv q.num q.den
  let rem2 := 2 * (q.num - f * q.den)
  if rem2 < (q.den : Int) then f
  else if (q.den : Int) < rem2 then f + 1
  else if f % 2 = 0 then f else f + 1

/-- Python `round(x, 2)` on the exact-fraction model of floats. -/
def pyRound2 (q : Frac) : Frac :=
  ⟨roundHalfEven ⟨q.num * 100, q.den⟩, 100⟩

/-- Minimal `k` (searched up to 30) with `den ∣ 10 ^ k`. -/
def decExp (den : Nat) : Option Nat :=
  (List.range 31).find? (fun k => 10 ^ k % den == 0)

/-- Left-pad a string with zeros to length `k`. -/
def padZeros (s : String) (k : Nat) : String :=
  String.mk (List.replicate (k - s.length) '0') ++ s

/-- Drop trailing `'0'` characters. -/
def dropTrailingZeros (s : String) : String :=
  String.mk (s.data.reverse.dropWhile (fun c => c == '0')).reverse

/-- Python `str(float)` for values with a finite decimal expansion (the only
values the tools produce): shortest decimal form, with at least one
fractional digit. -/
def ratDecimalString (q : Frac) : String :=
  let sign := if q.num < 0 then "-" else ""
  match decExp q.den with
  | some 0 => sign ++ toString q.num.natAbs ++ ".0"
  | some k =>
    let scaled := q.num.natAbs * 10 ^ k / q.den
    let fp := dropTrailingZeros (padZeros (toString (scaled % 10 ^ k)) k)
    sign ++ toString (scaled / 10 ^ k) ++ "."
      ++ (if fp == "" then "0" else fp)
  | none => sign ++ toString q.num.natAbs ++ "/" ++ toString q.den

/-- Python `str(value)` on a scalar. -/
def pyStrVal : Val → String
  | Val.vs s => s
  | Val.vi n => toString n
  | Val.vq q => ratDecimalString q

/-- Python dict assignment `m[k] = v`: replace in place if the key exists,
else append (insertion order preserved). -/
def dictInsert (m : List (String × Val)) (k : String) (v : Val) : List (String × Val) :=
  if m.any (fun p => p.1 == k) then
    m.map (fun p => if p.1 == k then (p.1, v) else p)
  else m ++ [(k, v)]

/-- Python dict lookup `m[c]` (the `none` branch is a KeyError, unreachable in
`visual_report` since every column name is inserted into every record). -/
def dictGet (m : List (String × Val)) (k : String) : Option Val :=
  (m.find? (fun p => p.1 == k)).map Prod.snd

/-- One cell of the `visual_report` formatting loop (`tools.py` lines 49-53):
look the column index up in `format_columns` and apply the recognized
coercions. `format_columns = none` models Python `None`; `some []` (the empty
dict, falsy in Python) skips formatting exactly like the `none`/absent-index
cases, so a plain lookup is faithful. -/
def formatValue (format_columns : Option (List (Nat × String))) (i : Nat) (v : Val) :
    Option Val :=
  match format_columns with
  | none => some v
  | some fc =>
    match (fc.find? (fun p => p.1 == i)).map Prod.snd with
    | none => some v
    | some kind =>
      if kind == "currency" then (pyFloat v).map (fun x => Val.vq (pyRound2 x))
      else if kind == "number" then (pyInt v).map Val.vi
      else some v

/-- Inner loop of `visual_report` (`tools.py` lines 46-54): accumulate
`obj[col] = value` over `enumerate(columns)`; `row[i]` out of range is an
IndexError (`none`). -/
def buildRecordAux (fc : Option (List (Nat × String))) (row : List Val) :
    List (String × Val) → List (Nat × String) → Option (List (String × Val))
  | obj, [] => some obj
  | obj, (i, col) :: rest =>
    match row[i]? with
    | none => none
    | some v =>
      match formatValue fc i v with
      | none => none
      | some v => buildRecordAux fc row (dictInsert obj col v) rest

/-- One structured record of `visual_report`, from one raw row. -/
def buildRecord (columns : List String) (fc : Option (List (Nat × String)))
    (row : List Val) : Option (List (String × Val)) :=
  buildRecordAux fc row [] columns.enum

/-- `Option`-valued list traversal (the accumulation of `structured_rows`);
`none` as soon as one row raises. -/
def mapMOpt (f : α → Option β) : List α → Option (List β)
  | [] => some []
  | a :: as =>
    match f a with
    | none => none
    | some b =>
      match mapMOpt f as with
      | none => none
      | some bs => some (b :: bs)

/-- One markdown body line of `visual_report` (`tools.py` line 63):
`"| " + " | ".join(str(r[c]) for c in columns) + " |\n"`. The `none` branch of
the dict lookup is a KeyError, unreachable by construction. -/
def mdRowLine (columns : List String) (r : List (String × Val)) : String :=
  "| " ++ String.intercalate " | "
      (columns.map (fun c =>
        match dictGet r c with
        | some v => pyStrVal v
        | none => "")) ++ " |\n"

/-- The markdown rendering of `visual_report` (`tools.py` lines 58-66). An
empty `summary` string is falsy in Python, so it appends nothing. -/
def mdOf (title description : String) (columns : List String)
    (structured_rows : List (List (String × Val))) (summary : Option String) : String :=
  "## " ++ title ++ "\n\n*" ++ description ++ "*\n\n"
    ++ ("| " ++ String.intercalate " | " columns ++ " |\n")
    ++ ("| " ++ String.intercalate " | " (columns.map (fun _ => "---")) ++ " |\n")
    ++ String.join (structured_rows.map (mdRowLine columns))
    ++ (match summary with
        | none => ""
        | some st => if st == "" then "" else "\n###  Análisis\n" ++ st ++ "\n")

/-- A structured record as a JSON value. -/
def recordToJ (r : List (String × Val)) : J :=
  J.obj (r.map (fun p => (p.1, valToJ p.2)))
where
  valToJ : Val → J
    | Val.vs s => J.s s
    | Val.vi n => J.i n
    | Val.vq q => J.q q

/-- The Result Normalizer `visual_report` (`tools.py` lines 30-74). `none`
models the call raising (IndexError/ValueError from the formatting loop). -/
def visual_report (title description : String) (columns : List String)
    (rows : List (List Val)) (summary : Option String)
    (format_columns : Option (List (Nat × String))) : Option J :=
  match mapMOpt (buildRecord columns format_columns) rows with
  | none => none
  | some structured_rows =>
    some (J.obj
      [("title", J.s title),
       ("description", J.s description),
       ("columns", J.arr (columns.map J.s)),
       ("data", J.arr (structured_rows.map recordToJ)),
       ("markdown", J.s (mdOf title description columns structured_rows summary))])

/-- What the Executor returns: column names and rows (`result.keys()` and
`fetchall()`). -/
structure QueryResult where
  keys : List String
  rows : List (List Val)

/-- The deny list of `tools.py` line 229. -/
def FORBIDDEN : List String := ["insert", "update", "delete", "drop", "alter", "truncate"]

/-- The statement `run_safe_query` hands to the Executor once both gates pass
(`tools.py` lines 244-245): append the limit unless `"limit"` occurs as a
substring of the lowered statement. -/
def rsqPrepared (sql : String) (limit : Int) : String :=
  if strContains (pyLower sql) "limit" then sql
  else sql ++ " LIMIT " ++ toString limit

/-- The safe-query gate `run_safe_query` (`tools.py` lines 231-259), over an
abstract Executor `db`. First component: the returned value (`none` = the call
raised inside `visual_report`). Second component: the statement handed to the
Executor (`none` = the Executor was never invoked). -/
def run_safe_query (sql : String) (limit : Int) (db : String → QueryResult) :
    Option J × Option String :=
  let lowered := pyLower sql
  if !(pyStartsWith lowered "select") then
    (some (J.s " Solo se permiten consultas SELECT."), none)
  else if FORBIDDEN.any (fun word => strContains lowered word) then
    (some (J.s " Consulta bloqueada por seguridad."), none)
  else
    let sql2 := rsqPrepared sql limit
    let result := db sql2
    if result.rows.isEmpty then
      (some (J.s "Consulta ejecutada sin resultados."), some sql2)
    else
      (visual_report "Resultado de consulta SQL" "Consulta ejecutada de forma segura."
        result.keys result.rows none none, some sql2)

/-!
Report catalog entries (`tools.py` lines 80-460). Each entry's SQL runs on the
external store, so each is modelled from its fetched rows onward: the argument
is the typed row list the query produced, the definition is the normalization
the tool then performs on it.
-/

/-- `list_tables` (`tools.py` lines 80-97), from its fetched table names. -/
def list_tables_result (tables : List String) : Option J :=
  visual_report "Tablas disponibles" "Tablas públicas de la base de datos Pagila."
    ["tabla"] (tables.map (fun t => [Val.vs t])) none none

/-- `list_columns` (`tools.py` lines 100-117), from its fetched
(column name, data type) rows. -/
def list_columns_result (table_name : String) (cols : List (String × String)) : Option J :=
  visual_report ("Estructura de " ++ table_name) "Columnas y tipos de datos."
    ["columna", "tipo"] (cols.map (fun c => [Val.vs c.1, Val.vs c.2])) none none

/-- `top_customers_by_rentals` (`tools.py` lines 123-153), from its fetched
(customer_id, cliente, alquileres) rows. -/
def top_customers_by_rentals_result (top_n : Int) (rows : List (Int × String × Int)) :
    Option J :=
  visual_report ("Top " ++ toString top_n ++ " clientes por alquileres")
    "Ranking dinámico de clientes más activos."
    ["customer_id", "cliente", "alquileres"]
    (rows.map (fun r => [Val.vi r.1, Val.vs r.2.1, Val.vi r.2.2]))
    (some "Los clientes en las primeras posiciones representan el mayor volumen de actividad.")
    (some [(2, "number")])

/-- `top_customers_by_revenue` (`tools.py` lines 156-186), from its fetched
(customer_id, cliente, ingresos) rows. -/
def top_customers_by_revenue_result (top_n : Int) (rows : List (Int × String × Frac)) :
    Option J :=
  visual_report ("Top " ++ toString top_n ++ " clientes por ingresos")
    "Clientes que más dinero han generado."
    ["customer_id", "cliente", "ingresos"]
    (rows.map (fun r => [Val.vi r.1, Val.vs r.2.1, Val.vq r.2.2]))
    (some "Este ranking identifica a los clientes más rentables para el negocio.")
    (some [(2, "currency")])

/-- `top_categories_by_revenue` (`tools.py` lines 189-225), from its fetched
(categoria, ingresos) rows. -/
def top_categories_by_revenue_result (top_n : Int) (rows : List (String × Frac)) :
    Option J :=
  visual_report ("Top " ++ toString top_n ++ " categorías más rentables")
    "Ranking de categorías según ingresos totales."
    ["categoría", "ingresos"]
    (rows.map (fun r => [Val.vs r.1, Val.vq r.2]))
    (some ("Las primeras categorías concentran la mayor parte de los ingresos, "
      ++ "lo que permite priorizar inversión y marketing."))
    (some [(1, "currency")])

/-- `top_actors_by_film_count` (`tools.py` lines 261-294), from its fetched
(actor_id, actor, peliculas) rows. -/
def top_actors_by_film_count_result (top_n : Int) (rows : List (Int × String × Int)) :
    Option J :=
  visual_report ("Top " ++ toString top_n ++ " actores con más películas")
    "Ranking dinámico de actores según número de películas."
    ["actor_id", "actor", "películas"]
    (rows.map (fun r => [Val.vi r.1, Val.vs r.2.1, Val.vi r.2.2]))
    (some ("Los actores en las primeras posiciones tienen mayor presencia en el catálogo, "
      ++ "lo que puede indicar alta demanda o popularidad."))
    (some [(2, "number")])

/-- `top_actors_by_revenue` (`tools.py` lines 296-332), from its fetched
(actor_id, actor, ingresos) rows. -/
def top_actors_by_revenue_result (top_n : Int) (rows : List (Int × String × Frac)) :
    Option J :=
  visual_report ("Top " ++ toString top_n ++ " actores más rentables")
    "Actores ordenados por ingresos totales generados."
    ["actor_id", "actor", "ingresos"]
    (rows.map (fun r => [Val.vi r.1, Val.vs r.2.1, Val.vq r.2.2]))
    (some ("Este ranking permite identificar a los actores con mayor impacto económico "
      ++ "dentro del catálogo."))
    (some [(2, "currency")])

/-- `films_by_actor` (`tools.py` lines 333-376): builds its return dict by
hand, NOT through `visual_report`; `data` is a list of lists. From its
fetched (title, categoria, release_year) rows. -/
def films_by_actor_result (actor_name : String) (films : List (String × String × Int)) : J :=
  let total : Int := films.length
  let rows := films.map (fun f => [Val.vs f.1, Val.vs f.2.1, Val.vi f.2.2])
  J.obj
    [("title", J.s ("Películas del actor: " ++ actor_name)),
     ("total_peliculas", J.i total),
     ("markdown", J.s
       ("##  Películas de " ++ actor_name ++ "\n\n"
        ++ "**Total de películas:** " ++ toString total ++ "\n\n"
        ++ "| Película | Categoría | Año |\n"
        ++ "|----------|-----------|-----|\n"
        ++ String.intercalate "\n"
          (films.map (fun f =>
            "| " ++ f.1 ++ " | " ++ f.2.1 ++ " | " ++ toString f.2.2 ++ " |")))),
     ("data", J.arr (rows.map (fun r => J.arr (r.map recordToJ.valToJ))))]

/-- `top_rented_movies` (`tools.py` lines 377-417): builds its return dict by
hand, NOT through `visual_report`. From its fetched (title, total) rows. -/
def top_rented_movies_result (top_n : Int) (rows : List (String × Int)) : J :=
  J.obj
    [("title", J.s ("Top " ++ toString top_n ++ " películas más alquiladas")),
     ("total_peliculas", J.i rows.length),
     ("markdown", J.s
       ("##  Top " ++ toString top_n ++ " películas más alquiladas\n\n"
        ++ "| Posición | Película | Total de alquileres |\n"
        ++ "|----------|----------|---------------------|\n"
        ++ String.intercalate "\n"
          (rows.enum.map (fun p =>
            "| " ++ toString (p.1 + 1) ++ " | " ++ p.2.1 ++ " | "
              ++ toString p.2.2 ++ " |")))),
     ("data", J.arr (rows.enum.map (fun p =>
       J.obj
         [("posicion", J.i (p.1 + 1 : Int)),
          ("pelicula", J.s p.2.1),
          ("alquileres", J.i p.2.2)])))]

/-- Split a character list into chunks of three. -/
def chunk3 : List Char → List (List Char)
  | [] => []
  | a :: b :: c :: rest => [a, b, c] :: chunk3 rest
  | l => [l]

/-- Thousands grouping of a digit string (Python format spec `,`). -/
def group3 (s : String) : String :=
  String.mk (List.intercalate [','] (chunk3 s.data.reverse)).reverse

/-- Two-digit zero-padded rendering of `n < 100`. -/
def pad2 (n : Nat) : String :=
  if n < 10 then "0" ++ toString n else toString n

/-- Python `f"{x:,.2f}"` on the exact-fraction model of floats. -/
def commaFmt2 (q : Frac) : String :=
  let cents := roundHalfEven ⟨q.num * 100, q.den⟩
  let n := cents.natAbs
  (if cents < 0 then "-" else "") ++ group3 (toString (n / 100)) ++ "." ++ pad2 (n % 100)

/-- `top_profitable_categories` (`tools.py` lines 418-460): builds its return
dict by hand, NOT through `visual_report`. From its fetched (name, revenue)
rows. -/
def top_profitable_categories_result (top_n : Int) (rows : List (String × Frac)) : J :=
  J.obj
    [("title", J.s ("Top " ++ toString top_n ++ " categorías más rentables")),
     ("markdown", J.s
       ("## Categorías más rentables\n\n"
        ++ "| Posición | Categoría | Ingresos |\n"
        ++ "|----------|-----------|----------|\n"
        ++ String.intercalate "\n"
          (rows.enum.map (fun p =>
            "| " ++ toString (p.1 + 1) ++ " | " ++ p.2.1 ++ " | $"
              ++ commaFmt2 p.2.2 ++ " |")))),
     ("data", J.arr (rows.enum.map (fun p =>
       J.obj
         [("posicion", J.i (p.1 + 1 : Int)),
          ("categoria", J.s p.2.1),
          ("ingresos", J.q p.2.2)])))]

/-- The key list of the canonical Result Envelope. -/
def canonKeys : List String := ["title", "description", "columns", "data", "markdown"]

/-- A trivial Executor returning no rows, for concrete instances. -/
def dbEmpty : String → QueryResult := fun _ => ⟨[], []⟩

/-- An Executor returning one single-column row, for concrete instances. -/
def dbOneRow : String → QueryResult := fun _ => ⟨["c"], [[Val.vi 1]]⟩

/-- Accumulating tokenizer: split a character list at every non-identifier
character (identifier characters: alphanumeric or underscore). -/
def tokenSplit : List Char → List Char → List (List Char)
  | acc, [] => [acc.reverse]
  | acc, c :: rest =>
    if c.isAlphanum || c == '_' then tokenSplit (c :: acc) rest
    else acc.reverse :: tokenSplit [] rest

/-- Spec-side notion for the bounding gate: the statement contains `limit` as
a whole token (a maximal run of identifier characters). -/
def containsTokenLimit (s : String) : Bool :=
  (tokenSplit [] s.data).contains "limit".data

/-- Spec-side notion for the read-only gate: the statement with leading
whitespace trimmed. -/
def trimLeadingWS (s : String) : String :=
  String.mk (s.data.dropWhile Char.isWhitespace)

/-! Helper lemmas. -/

theorem visual_report_keys (t d : String) (c : List String) (r : List (List Val))
    (s : Option String) (f : Option (List (Nat × String))) (env : J)
    (h : visual_report t d c r s f = some env) :
    jKeys env = canonKeys := by
  unfold visual_report at h
  split at h
  · exact absurd h (by simp)
  · simp only [Option.some.injEq] at h
    subst h
    rfl

theorem dictInsert_not_mem (m : List (String × Val)) (k : String) (v : Val)
    (h : k ∉ m.map Prod.fst) : dictInsert m k v = m ++ [(k, v)] := by
  unfold dictInsert
  rw [if_neg]
  intro hc
  apply h
  simp only [List.any_eq_true, beq_iff_eq] at hc
  obtain ⟨p, hp, he⟩ := hc
  exact List.mem_map.mpr ⟨p, hp, he⟩

theorem buildRecordAux_keys (fc : Option (List (Nat × String))) (row : List Val) :
    ∀ (pairs : List (Nat × String)) (obj rec : List (String × Val)),
      (pairs.map Prod.snd).Nodup →
      (∀ c ∈ pairs.map Prod.snd, c ∉ obj.map Prod.fst) →
      buildRecordAux fc row obj pairs = some rec →
      rec.map Prod.fst = obj.map Prod.fst ++ pairs.map Prod.snd := by
  intro pairs
  induction pairs with
  | nil =>
    intro obj rec _ _ h
    simp only [buildRecordAux, Option.some.injEq] at h
    subst h
    simp
  | cons p rest ih =>
    intro obj rec hnd hdisj h
    obtain ⟨i, col⟩ := p
    simp only [buildRecordAux] at h
    cases hv : row[i]? with
    | none => rw [hv] at h; exact absurd h (by simp)
    | some v =>
      rw [hv] at h
      dsimp only at h
      cases hf : formatValue fc i v with
      | none => rw [hf] at h; exact absurd h (by simp)
      | some v' =>
        rw [hf] at h
        dsimp only at h
        have hcol : col ∉ obj.map Prod.fst := hdisj col (by simp)
        rw [dictInsert_not_mem obj col v' hcol] at h
        simp only [List.map_cons, List.nodup_cons] at hnd
        have hdisj' : ∀ c ∈ rest.map Prod.snd, c ∉ (obj ++ [(col, v')]).map Prod.fst := by
          intro c hc
          rw [List.map_append]
          simp only [List.mem_append, List.map_cons, List.map_nil, List.mem_singleton]
          rintro (hin | hin)
          · exact hdisj c (by simp [hc]) hin
          · exact hnd.1 (hin ▸ hc)
        have hrec := ih (obj ++ [(col, v')]) rec hnd.2 hdisj' h
        rw [hrec, List.map_append]
        simp

theorem buildRecord_keys (columns : List String) (fc : Option (List (Nat × String)))
    (row : List Val) (rec : List (String × Val))
    (hnd : columns.Nodup) (h : buildRecord columns fc row = some rec) :
    rec.map Prod.fst = columns := by
  have hsnd : columns.enum.map Prod.snd = columns := List.enum_map_snd columns
  have := buildRecordAux_keys fc row columns.enum [] rec
    (by rw [hsnd]; exact hnd) (by simp) h
  simpa [hsnd] using this

theorem mapMOpt_length (f : α → Option β) :
    ∀ (l : List α) (bs : List β), mapMOpt f l = some bs → bs.length = l.length := by
  intro l
  induction l with
  | nil =>
    intro bs h
    simp only [mapMOpt, Option.some.injEq] at h
    subst h
    rfl
  | cons a as ih =>
    intro bs h
    simp only [mapMOpt] at h
    cases hf : f a with
    | none => rw [hf] at h; exact absurd h (by simp)
    | some b =>
      rw [hf] at h
      cases hm : mapMOpt f as with
      | none => rw [hm] at h; exact absurd h (by simp)
      | some bs' =>
        rw [hm] at h
        simp only [Option.some.injEq] at h
        subst h
        simp [ih bs' hm]

theorem mapMOpt_map_total (g : α → List Val) (f : List Val → Option β)
    (h : ∀ a, (f (g a)).isSome) :
    ∀ l : List α, (mapMOpt f (l.map g)).isSome := by
  intro l
  induction l with
  | nil => simp [mapMOpt]
  | cons a as ih =>
    simp only [List.map_cons, mapMOpt]
    cases hf : f (g a) with
    | none =>
      have := h a
      rw [hf] at this
      exact absurd this (by simp)
    | some b =>
      cases hm : mapMOpt f (as.map g) with
      | none => rw [hm] at ih; exact absurd ih (by simp)
      | some bs => simp

theorem visual_report_total (t d : String) (c : List String) (s : Option String)
    (f : Option (List (Nat × String))) (g : α → List Val) (rows : List α)
    (h : ∀ a, (buildRecord c f (g a)).isSome) :
    ∃ env, visual_report t d c (rows.map g) s f = some env := by
  have := mapMOpt_map_total g (buildRecord c f) h rows
  cases hm : mapMOpt (buildRecord c f) (rows.map g) with
  | none => rw [hm] at this; exact absurd this (by simp)
  | some sr => exact ⟨_, by unfold visual_report; rw [hm]⟩

theorem mapMOpt_mem (f : α → Option β) :
    ∀ (l : List α) (bs : List β), mapMOpt f l = some bs →
      ∀ b ∈ bs, ∃ a ∈ l, f a = some b := by
  intro l
  induction l with
  | nil =>
    intro bs h
    simp only [mapMOpt, Option.some.injEq] at h
    subst h
    simp
  | cons a as ih =>
    intro bs h
    simp only [mapMOpt] at h
    cases hf : f a with
    | none => rw [hf] at h; exact absurd h (by simp)
    | some b =>
      rw [hf] at h
      cases hm : mapMOpt f as with
      | none => rw [hm] at h; exact absurd h (by simp)
      | some bs' =>
        rw [hm] at h
        simp only [Option.some.injEq] at h
        subst h
        intro x hx
        rcases List.mem_cons.mp hx with hx | hx
        · exact ⟨a, by simp, hx ▸ hf⟩
        · obtain ⟨a', ha', he⟩ := ih bs' hm x hx
          exact ⟨a', by simp [ha'], he⟩

theorem catalog_keys (t d : String) (c : List String) (s : Option String)
    (f : Option (List (Nat × String))) (g : α → List Val) (rows : List α)
    (h : ∀ a, (buildRecord c f (g a)).isSome) :
    (visual_report t d c (rows.map g) s f).map jKeys = some canonKeys := by
  obtain ⟨env, he⟩ := visual_report_total t d c s f g rows h
  rw [he]
  show some (jKeys env) = some canonKeys
  rw [visual_report_keys t d c (rows.map g) s f env he]

theorem run_safe_query_not_select (sql : String) (limit : Int) (db : String → QueryResult)
    (hs : pyStartsWith (pyLower sql) "select" = false) :
    run_safe_query sql limit db = (some (J.s " Solo se permiten consultas SELECT."), none) := by
  unfold run_safe_query
  dsimp only
  rw [hs]
  rfl

theorem run_safe_query_blocked (sql : String) (limit : Int) (db : String → QueryResult)
    (hs : pyStartsWith (pyLower sql) "select" = true)
    (hf : FORBIDDEN.any (fun word => strContains (pyLower sql) word) = true) :
    run_safe_query sql limit db = (some (J.s " Consulta bloqueada por seguridad."), none) := by
  unfold run_safe_query
  dsimp only
  rw [hs, hf]
  rfl

theorem run_safe_query_executes (sql : String) (limit : Int) (db : String → QueryResult)
    (hs : pyStartsWith (pyLower sql) "select" = true)
    (hf : FORBIDDEN.any (fun word => strContains (pyLower sql) word) = false) :
    (run_safe_query sql limit db).2 = some (rsqPrepared sql limit) := by
  unfold run_safe_query
  dsimp only
  rw [hs, hf]
  show (if (db (rsqPrepared sql limit)).rows.isEmpty = true then _ else _ : Option J × Option String).2
    = some (rsqPrepared sql limit)
  split <;> rfl

/-! Claim theorems. -/

/-- C1: every input whose case-folded text contains a deny-listed keyword
(`insert`, `update`, `delete`, `drop`, `alter`, `truncate`) as a substring
anywhere is answered by `run_safe_query` with a policy-refusal value (one of
the two `PolicyRejection` sub-kinds) and the Executor is never invoked. -/
theorem C1_denylist_refusal (sql : String) (limit : Int) (db : String → QueryResult)
    (h : FORBIDDEN.any (fun word => strContains (pyLower sql) word) = true) :
    (run_safe_query sql limit db).2 = none ∧
      ((run_safe_query sql limit db).1 = some (J.s " Solo se permiten consultas SELECT.") ∨
       (run_safe_query sql limit db).1 = some (J.s " Consulta bloqueada por seguridad.")) := by
  cases hs : pyStartsWith (pyLower sql) "select" with
  | false =>
    rw [run_safe_query_not_select sql limit db hs]
    exact ⟨rfl, Or.inl rfl⟩
  | true =>
    rw [run_safe_query_blocked sql limit db hs h]
    exact ⟨rfl, Or.inr rfl⟩

/-- C1 witness: a syntactic SELECT whose string literal contains `update` is
refused without executing. -/
theorem C1_denylist_refusal_witness :
    FORBIDDEN.any (fun word =>
        strContains (pyLower "select * from t where note = 'please update later'") word) = true ∧
    ((run_safe_query "select * from t where note = 'please update later'" 100 dbEmpty).2 = none ∧
      ((run_safe_query "select * from t where note = 'please update later'" 100 dbEmpty).1 =
          some (J.s " Solo se permiten consultas SELECT.") ∨
       (run_safe_query "select * from t where note = 'please update later'" 100 dbEmpty).1 =
          some (J.s " Consulta bloqueada por seguridad."))) :=
  ⟨by decide,
   C1_denylist_refusal "select * from t where note = 'please update later'" 100 dbEmpty
    (by decide)⟩

/-- C2 counterexample: `" select 1"` does begin with `select` after trimming
leading whitespace, yet the gate (which never trims) refuses it and the
Executor is never invoked — contradicting the claim that every statement
beginning with `select` after trimming passes the read-only gate. -/
theorem C2_counterexample :
    pyStartsWith (pyLower (trimLeadingWS " select 1")) "select" = true ∧
    (run_safe_query " select 1" 100 dbEmpty).1 =
      some (J.s " Solo se permiten consultas SELECT.") ∧
    (run_safe_query " select 1" 100 dbEmpty).2 = none :=
  ⟨by decide, rfl, rfl⟩

/-- C2 amended: no whitespace trimming is performed — `run_safe_query`
returns the "only SELECT permitted" refusal, with the Executor not invoked,
exactly for those inputs whose case-folded text does not literally begin with
`select`. -/
theorem C2_amended_read_only_gate (sql : String) (limit : Int) (db : String → QueryResult) :
    ((run_safe_query sql limit db).1 = some (J.s " Solo se permiten consultas SELECT.") ∧
      (run_safe_query sql limit db).2 = none)
    ↔ pyStartsWith (pyLower sql) "select" = false := by
  constructor
  · intro h
    cases hs : pyStartsWith (pyLower sql) "select" with
    | false => rfl
    | true =>
      exfalso
      cases hf : FORBIDDEN.any (fun word => strContains (pyLower sql) word) with
      | true =>
        have h1 := h.1
        rw [run_safe_query_blocked sql limit db hs hf] at h1
        simp only [Option.some.injEq, J.s.injEq] at h1
        exact absurd h1 (by decide)
      | false =>
        have h2 := h.2
        rw [run_safe_query_executes sql limit db hs hf] at h2
        exact absurd h2 (by simp)
  · intro hs
    rw [run_safe_query_not_select sql limit db hs]
    exact ⟨rfl, rfl⟩

/-- C2 amended witness: a non-SELECT statement is refused by the read-only
gate with the Executor not invoked. -/
theorem C2_amended_read_only_gate_witness :
    (run_safe_query "update film set title = 'X'" 100 dbEmpty).1 =
      some (J.s " Solo se permiten consultas SELECT.") ∧
    (run_safe_query "update film set title = 'X'" 100 dbEmpty).2 = none :=
  (C2_amended_read_only_gate "update film set title = 'X'" 100 dbEmpty).mpr (by decide)

/-- C3 counterexample: `"select delimited from film"` does not contain
`limit` as a token (only as a substring of the identifier `delimited`), yet
the statement is handed to the Executor unmodified, with no ` LIMIT 100`
appended — contradicting the token reading of the claim. -/
theorem C3_counterexample :
    containsTokenLimit (pyLower "select delimited from film") = false ∧
    (run_safe_query "select delimited from film" 100 dbOneRow).2 =
      some "select delimited from film" :=
  ⟨by decide, rfl⟩

/-- C3 amended: the bounding gate tests `limit` as a *substring* of the
case-folded statement, not as a token: for gate-passing statements, when the
substring is absent the Executor receives the original text with
` LIMIT <limit>` appended, and when it is present the original text
unmodified. -/
theorem C3_amended_limit_append (sql : String) (limit : Int) (db : String → QueryResult)
    (hs : pyStartsWith (pyLower sql) "select" = true)
    (hf : FORBIDDEN.any (fun word => strContains (pyLower sql) word) = false) :
    (run_safe_query sql limit db).2 =
      some (if strContains (pyLower sql) "limit" then sql
            else sql ++ " LIMIT " ++ toString limit) := by
  rw [run_safe_query_executes sql limit db hs hf]
  rfl

/-- C3 amended witness: `select customer_id from customer` with limit 5
executes as `select customer_id from customer LIMIT 5`. -/
theorem C3_amended_limit_append_witness :
    pyStartsWith (pyLower "select customer_id from customer") "select" = true ∧
    FORBIDDEN.any (fun word =>
      strContains (pyLower "select customer_id from customer") word) = false ∧
    (run_safe_query "select customer_id from customer" 5 dbOneRow).2 =
      some (if strContains (pyLower "select customer_id from customer") "limit"
            then "select customer_id from customer"
            else "select customer_id from customer" ++ " LIMIT " ++ toString (5 : Int)) :=
  ⟨by decide, by decide,
   C3_amended_limit_append "select customer_id from customer" 5 dbOneRow
    (by decide) (by decide)⟩

/-- C4: a statement that passes both gates and whose execution yields zero
rows is answered with the plain informational string value — a `J.s`, not a
Result Envelope object. -/
theorem C4_zero_rows_plain_string (sql : String) (limit : Int) (db : String → QueryResult)
    (hs : pyStartsWith (pyLower sql) "select" = true)
    (hf : FORBIDDEN.any (fun word => strContains (pyLower sql) word) = false)
    (hz : (db (rsqPrepared sql limit)).rows = []) :
    (run_safe_query sql limit db).1 = some (J.s "Consulta ejecutada sin resultados.") := by
  unfold run_safe_query
  dsimp only
  rw [hs, hf, hz]
  rfl

/-- C4 witness: the zero-row safe query of the spec returns the informational
string. -/
theorem C4_zero_rows_plain_string_witness :
    pyStartsWith (pyLower "select * from category where 1=0") "select" = true ∧
    FORBIDDEN.any (fun word =>
      strContains (pyLower "select * from category where 1=0") word) = false ∧
    (dbEmpty (rsqPrepared "select * from category where 1=0" 100)).rows = [] ∧
    (run_safe_query "select * from category where 1=0" 100 dbEmpty).1 =
      some (J.s "Consulta ejecutada sin resultados.") :=
  ⟨by decide, by decide, rfl,
   C4_zero_rows_plain_string "select * from category where 1=0" 100 dbEmpty
    (by decide) (by decide) rfl⟩

/-- C9: the read-only gate runs first — any input whose case-folded text does
not begin with `select` gets the "only SELECT permitted" refusal (not the
"blocked for safety" one), with the Executor never invoked, even when a
deny-listed keyword is present. -/
theorem C9_read_only_gate_precedence (sql : String) (limit : Int)
    (db : String → QueryResult)
    (h : pyStartsWith (pyLower sql) "select" = false) :
    (run_safe_query sql limit db).1 = some (J.s " Solo se permiten consultas SELECT.") ∧
      (run_safe_query sql limit db).2 = none := by
  rw [run_safe_query_not_select sql limit db h]
  exact ⟨rfl, rfl⟩

/-- C9 witness: `DROP TABLE customer` contains the deny-listed `drop` but is
answered with the not-a-SELECT refusal. -/
theorem C9_read_only_gate_precedence_witness :
    FORBIDDEN.any (fun word => strContains (pyLower "DROP TABLE customer") word) = true ∧
    ((run_safe_query "DROP TABLE customer" 100 dbEmpty).1 =
        some (J.s " Solo se permiten consultas SELECT.") ∧
      (run_safe_query "DROP TABLE customer" 100 dbEmpty).2 = none) :=
  ⟨by decide, C9_read_only_gate_precedence "DROP TABLE customer" 100 dbEmpty (by decide)⟩

/-- C5 counterexample: Python `int("7.0")` is a ValueError — with format kind
`number` on the string value `"7.0"`, the Normalizer raises and produces no
envelope at all (in particular it does not yield the integer 7). -/
theorem C5_counterexample :
    visual_report "t" "d" ["c"] [[Val.vs "7.0"]] none (some [(0, "number")]) = none := rfl

/-- C5 amended: `currency` coerces via `round(float(v), 2)` — the string
`"19.989"` yields 19.99; `number` coerces via `int(v)` — the numeric 7.0 and
the integer-literal string `"7"` yield the integer 7, but the string `"7.0"`
raises ValueError; unrecognized kinds and absent entries pass the value
through unmodified. -/
theorem C5_amended_format_coercion :
    ((visual_report "t" "d" ["c"] [[Val.vs "19.989"]] none (some [(0, "currency")])).bind
        (fun j => jGet j "data") = some (J.arr [J.obj [("c", J.q ⟨1999, 100⟩)]])) ∧
    ((visual_report "t" "d" ["c"] [[Val.vq ⟨7, 1⟩]] none (some [(0, "number")])).bind
        (fun j => jGet j "data") = some (J.arr [J.obj [("c", J.i 7)]])) ∧
    (formatValue (some [(0, "number")]) 0 (Val.vs "7") = some (Val.vi 7)) ∧
    (formatValue (some [(0, "number")]) 0 (Val.vs "7.0") = none) ∧
    (∀ i v, formatValue none i v = some v) ∧
    (∀ i v, formatValue (some [(i, "percentage")]) i v = some v) ∧
    (∀ i v kind, formatValue (some [(i + 1, kind)]) i v = some v) := by
  refine ⟨rfl, rfl, rfl, rfl, fun i v => rfl, fun i v => ?_, fun i v kind => ?_⟩
  · simp [formatValue, List.find?]
  · have hb : ((i + 1 : Nat) == i) = false := by
      rw [beq_eq_false_iff_ne]
      omega
    simp [formatValue, List.find?, hb]

/-- C6 counterexample: with duplicate column names the dict assignment
overwrites, so the Normalizer produces an envelope whose single record has 1
key while `columns` has length 2 — the claimed invariant fails. -/
theorem C6_counterexample :
    (visual_report "t" "d" ["a", "a"] [[Val.vi 1, Val.vi 2]] none none).bind
        (fun j => jGet j "data") = some (J.arr [J.obj [("a", J.i 2)]]) ∧
    (["a", "a"] : List String).length = 2 :=
  ⟨rfl, rfl⟩

/-- C6 amended: provided the column names are pairwise distinct, every
envelope the Normalizer produces satisfies the invariant — each record in
`data` has exactly as many keys as there are columns, and `data` has exactly
one record per input row. -/
theorem C6_amended_envelope_invariant (title description : String)
    (columns : List String) (rows : List (List Val)) (summary : Option String)
    (fc : Option (List (Nat × String))) (env : J)
    (hnd : columns.Nodup)
    (h : visual_report title description columns rows summary fc = some env) :
    ∃ recs, jGet env "data" = some (J.arr recs) ∧
      recs.length = rows.length ∧
      ∀ rec ∈ recs, (jKeys rec).length = columns.length := by
  unfold visual_report at h
  split at h
  · exact absurd h (by simp)
  · rename_i sr hm
    simp only [Option.some.injEq] at h
    subst h
    refine ⟨sr.map recordToJ, rfl, ?_, ?_⟩
    · rw [List.length_map]
      exact mapMOpt_length _ rows sr hm
    · intro rec hrec
      rw [List.mem_map] at hrec
      obtain ⟨r, hr, hre⟩ := hrec
      subst hre
      have hk : jKeys (recordToJ r) = r.map Prod.fst := by
        simp [recordToJ, jKeys]
      obtain ⟨row, _, hb⟩ := mapMOpt_mem _ rows sr hm r hr
      rw [hk, buildRecord_keys columns fc row r hnd hb]

/-- C6 amended witness: a two-column one-row envelope satisfies the
invariant. -/
theorem C6_amended_envelope_invariant_witness :
    (["a", "b"] : List String).Nodup ∧
    visual_report "t" "d" ["a", "b"] [[Val.vi 1, Val.vi 2]] none none =
      some (J.obj
        [("title", J.s "t"), ("description", J.s "d"),
         ("columns", J.arr [J.s "a", J.s "b"]),
         ("data", J.arr [J.obj [("a", J.i 1), ("b", J.i 2)]]),
         ("markdown", J.s "## t\n\n*d*\n\n| a | b |\n| --- | --- |\n| 1 | 2 |\n")]) ∧
    (∃ recs,
      jGet (J.obj
        [("title", J.s "t"), ("description", J.s "d"),
         ("columns", J.arr [J.s "a", J.s "b"]),
         ("data", J.arr [J.obj [("a", J.i 1), ("b", J.i 2)]]),
         ("markdown", J.s "## t\n\n*d*\n\n| a | b |\n| --- | --- |\n| 1 | 2 |\n")]) "data"
        = some (J.arr recs) ∧
      recs.length = ([[Val.vi 1, Val.vi 2]] : List (List Val)).length ∧
      ∀ rec ∈ recs, (jKeys rec).length = (["a", "b"] : List String).length) :=
  ⟨by decide, rfl,
   C6_amended_envelope_invariant "t" "d" ["a", "b"] [[Val.vi 1, Val.vi 2]] none none _
    (by decide) rfl⟩

/-- C7: the Normalizer is a deterministic pure function — two calls with
identical arguments return identical envelopes, markdown included. -/
theorem C7_normalizer_deterministic (t₁ d₁ : String) (c₁ : List String)
    (r₁ : List (List Val)) (s₁ : Option String) (f₁ : Option (List (Nat × String)))
    (t₂ d₂ : String) (c₂ : List String) (r₂ : List (List Val)) (s₂ : Option String)
    (f₂ : Option (List (Nat × String)))
    (ht : t₁ = t₂) (hd : d₁ = d₂) (hc : c₁ = c₂) (hr : r₁ = r₂) (hs : s₁ = s₂)
    (hf : f₁ = f₂) :
    visual_report t₁ d₁ c₁ r₁ s₁ f₁ = visual_report t₂ d₂ c₂ r₂ s₂ f₂ := by
  subst ht hd hc hr hs hf
  rfl

/-- C7 witness: two identical concrete calls agree. -/
theorem C7_normalizer_deterministic_witness :
    visual_report "t" "d" ["a"] [[Val.vi 1]] (some "s") (some [(0, "number")]) =
      visual_report "t" "d" ["a"] [[Val.vi 1]] (some "s") (some [(0, "number")]) :=
  C7_normalizer_deterministic "t" "d" ["a"] [[Val.vi 1]] (some "s") (some [(0, "number")])
    "t" "d" ["a"] [[Val.vi 1]] (some "s") (some [(0, "number")])
    rfl rfl rfl rfl rfl rfl

/-- C8 counterexample: `films_by_actor` builds its result dict by hand — its
key list is not the canonical envelope key list the Normalizer produces (no
`description`, no `columns`), so not every report funnels through the
Normalizer. -/
theorem C8_counterexample :
    jKeys (films_by_actor_result "PENELOPE GUINESS" []) =
      ["title", "total_peliculas", "markdown", "data"] ∧
    jGet (films_by_actor_result "PENELOPE GUINESS" []) "description" = none ∧
    (list_tables_result ["actor"]).map jKeys = some canonKeys :=
  ⟨rfl, rfl, rfl⟩

/-- C8 amended: the fixed reports `list_tables`, `list_columns`,
`top_customers_by_rentals`, `top_customers_by_revenue`,
`top_categories_by_revenue`, `top_actors_by_film_count`,
`top_actors_by_revenue`, and the free-form path's non-empty result, all
funnel through the Normalizer and carry the canonical envelope keys; but
`films_by_actor`, `top_rented_movies` and `top_profitable_categories` build
ad hoc structures with different key lists. -/
theorem C8_amended_catalog_envelopes :
    (∀ tables, (list_tables_result tables).map jKeys = some canonKeys) ∧
    (∀ tbl cols, (list_columns_result tbl cols).map jKeys = some canonKeys) ∧
    (∀ n rows, (top_customers_by_rentals_result n rows).map jKeys = some canonKeys) ∧
    (∀ n rows, (top_customers_by_revenue_result n rows).map jKeys = some canonKeys) ∧
    (∀ n rows, (top_categories_by_revenue_result n rows).map jKeys = some canonKeys) ∧
    (∀ n rows, (top_actors_by_film_count_result n rows).map jKeys = some canonKeys) ∧
    (∀ n rows, (top_actors_by_revenue_result n rows).map jKeys = some canonKeys) ∧
    (∀ sql limit db env,
        (run_safe_query sql limit db).1 = some env →
        env = J.s " Solo se permiten consultas SELECT." ∨
        env = J.s " Consulta bloqueada por seguridad." ∨
        env = J.s "Consulta ejecutada sin resultados." ∨
        jKeys env = canonKeys) ∧
    (∀ name films, jKeys (films_by_actor_result name films) =
        ["title", "total_peliculas", "markdown", "data"]) ∧
    (∀ n rows, jKeys (top_rented_movies_result n rows) =
        ["title", "total_peliculas", "markdown", "data"]) ∧
    (∀ n rows, jKeys (top_profitable_categories_result n rows) =
        ["title", "markdown", "data"]) := by
  refine ⟨fun tables => catalog_keys _ _ _ _ _ _ tables (fun a => by rfl),
    fun tbl cols => catalog_keys _ _ _ _ _ _ cols (fun a => by rfl),
    fun n rows => catalog_keys _ _ _ _ _ _ rows (fun a => by rfl),
    fun n rows => catalog_keys _ _ _ _ _ _ rows (fun a => by rfl),
    fun n rows => catalog_keys _ _ _ _ _ _ rows (fun a => by rfl),
    fun n rows => catalog_keys _ _ _ _ _ _ rows (fun a => by rfl),
    fun n rows => catalog_keys _ _ _ _ _ _ rows (fun a => by rfl),
    ?_,
    fun name films => rfl, fun n rows => rfl, fun n rows => rfl⟩
  intro sql limit db env h
  cases hs : pyStartsWith (pyLower sql) "select" with
  | false =>
    rw [run_safe_query_not_select sql limit db hs] at h
    simp only [Option.some.injEq] at h
    exact Or.inl h.symm
  | true =>
    cases hf : FORBIDDEN.any (fun word => strContains (pyLower sql) word) with
    | true =>
      rw [run_safe_query_blocked sql limit db hs hf] at h
      simp only [Option.some.injEq] at h
      exact Or.inr (Or.inl h.symm)
    | false =>
      unfold run_safe_query at h
      dsimp only at h
      rw [hs, hf] at h
      by_cases hz : (db (rsqPrepared sql limit)).rows.isEmpty = true
      · rw [if_pos hz] at h
        have h2 : some (J.s "Consulta ejecutada sin resultados.") = some env := h
        exact Or.inr (Or.inr (Or.inl (Option.some.inj h2).symm))
      · rw [if_neg hz] at h
        exact Or.inr (Or.inr (Or.inr
          (visual_report_keys _ _ _ _ _ _ env h)))

/-- C8 amended witness: a zero-row safe query's value is the informational
string sub-case of the free-form conjunct. -/
theorem C8_amended_catalog_envelopes_witness :
    (run_safe_query "select 1" 100 dbEmpty).1 =
      some (J.s "Consulta ejecutada sin resultados.") ∧
    (J.s "Consulta ejecutada sin resultados." = J.s " Solo se permiten consultas SELECT." ∨
     J.s "Consulta ejecutada sin resultados." = J.s " Consulta bloqueada por seguridad." ∨
     J.s "Consulta ejecutada sin resultados." = J.s "Consulta ejecutada sin resultados." ∨
     jKeys (J.s "Consulta ejecutada sin resultados.") = canonKeys) :=
  ⟨rfl,
   C8_amended_catalog_envelopes.2.2.2.2.2.2.2.1 "select 1" 100 dbEmpty
    (J.s "Consulta ejecutada sin resultados.") rfl⟩

set_option maxRecDepth 8192 in
/-- C10: every fixed catalog entry that calls the Normalizer (`list_tables`,
`list_columns`, and the five `top_*` reports), on a query yielding zero rows,
still returns a canonical Result Envelope — `data` is the empty list and the
markdown holds the header and separator rows (plus, where the entry supplies
one, its fixed summary section) with no body rows — not the plain
informational string the free-form path uses. -/
theorem C10_fixed_entries_zero_rows (table_name : String) (n : Int) :
    (list_tables_result []).bind (fun j => jGet j "data") = some (J.arr []) ∧
    (list_columns_result table_name []).bind (fun j => jGet j "data") =
      some (J.arr []) ∧
    (top_customers_by_rentals_result n []).bind (fun j => jGet j "data") =
      some (J.arr []) ∧
    (top_customers_by_revenue_result n []).bind (fun j => jGet j "data") =
      some (J.arr []) ∧
    (top_categories_by_revenue_result n []).bind (fun j => jGet j "data") =
      some (J.arr []) ∧
    (top_actors_by_film_count_result n []).bind (fun j => jGet j "data") =
      some (J.arr []) ∧
    (top_actors_by_revenue_result n []).bind (fun j => jGet j "data") =
      some (J.arr []) ∧
    (list_tables_result []).bind (fun j => jGet j "markdown") =
      some (J.s
        "## Tablas disponibles\n\n*Tablas públicas de la base de datos Pagila.*\n\n| tabla |\n| --- |\n") ∧
    (list_columns_result "category" []).bind (fun j => jGet j "markdown") =
      some (J.s
        "## Estructura de category\n\n*Columnas y tipos de datos.*\n\n| columna | tipo |\n| --- | --- |\n") ∧
    (top_customers_by_rentals_result 10 []).bind (fun j => jGet j "markdown") =
      some (J.s
        "## Top 10 clientes por alquileres\n\n*Ranking dinámico de clientes más activos.*\n\n| customer_id | cliente | alquileres |\n| --- | --- | --- |\n\n###  Análisis\nLos clientes en las primeras posiciones representan el mayor volumen de actividad.\n") ∧
    (top_customers_by_revenue_result 10 []).bind (fun j => jGet j "markdown") =
      some (J.s
        "## Top 10 clientes por ingresos\n\n*Clientes que más dinero han generado.*\n\n| customer_id | cliente | ingresos |\n| --- | --- | --- |\n\n###  Análisis\nEste ranking identifica a los clientes más rentables para el negocio.\n") ∧
    (top_categories_by_revenue_result 10 []).bind (fun j => jGet j "markdown") =
      some (J.s
        "## Top 10 categorías más rentables\n\n*Ranking de categorías según ingresos totales.*\n\n| categoría | ingresos |\n| --- | --- |\n\n###  Análisis\nLas primeras categorías concentran la mayor parte de los ingresos, lo que permite priorizar inversión y marketing.\n") ∧
    (top_actors_by_film_count_result 10 []).bind (fun j => jGet j "markdown") =
      some (J.s
        "## Top 10 actores con más películas\n\n*Ranking dinámico de actores según número de películas.*\n\n| actor_id | actor | películas |\n| --- | --- | --- |\n\n###  Análisis\nLos actores en las primeras posiciones tienen mayor presencia en el catálogo, lo que puede indicar alta demanda o popularidad.\n") ∧
    (top_actors_by_revenue_result 10 []).bind (fun j => jGet j "markdown") =
      some (J.s
        "## Top 10 actores más rentables\n\n*Actores ordenados por ingresos totales generados.*\n\n| actor_id | actor | ingresos |\n| --- | --- | --- |\n\n###  Análisis\nEste ranking permite identificar a los actores con mayor impacto económico dentro del catálogo.\n") ∧
    (list_tables_result []).map jKeys = some canonKeys ∧
    (list_columns_result table_name []).map jKeys = some canonKeys ∧
    (top_customers_by_rentals_result n []).map jKeys = some canonKeys ∧
    (top_customers_by_revenue_result n []).map jKeys = some canonKeys ∧
    (top_categories_by_revenue_result n []).map jKeys = some canonKeys ∧
    (top_actors_by_film_count_result n []).map jKeys = some canonKeys ∧
    (top_actors_by_revenue_result n []).map jKeys = some canonKeys :=
  ⟨rfl, rfl, rfl, rfl, rfl, rfl, rfl, rfl, rfl, rfl, rfl, rfl, rfl, rfl,
   rfl, rfl, rfl, rfl, rfl, rfl, rfl⟩

end MCPDB
